import Mathlib

/-!
Shallow embedding of `app/persistence/local_disk.py`: the local-disk queue
(`LocalDiskQueue`) and the local-disk blob store (`LocalDiskBlob`).
Wall-clock timestamps are modelled as integers; random token / uuid
generation is modelled by passing the freshly drawn strings as inputs.
-/

set_option autoImplicit false

namespace LocalDisk

/-- A row of the queue table, per the CREATE TABLE statement in
`LocalDiskQueue.__aenter__`: `delete_token TEXT DEFAULT NULL`,
`dequeue_count INTEGER DEFAULT 0`, `id INTEGER PRIMARY KEY AUTOINCREMENT`,
`message TEXT NOT NULL`, `visibility_timeout DATETIME DEFAULT CURRENT_TIMESTAMP`. -/
structure Row where
  delete_token : Option String
  dequeue_count : Nat
  id : Nat
  message : String
  visibility_timeout : Int
deriving DecidableEq, Repr

/-- The `Message` value object handed to callers, with the fields
`receive_messages` fills in: content, delete token, id, visibility timeout,
dequeue count. -/
structure Message where
  content : String
  delete_token : String
  message_id : Nat
  visibility_timeout : Int
  dequeue_count : Nat
deriving DecidableEq, Repr

/-- The `send_message` insert: `INSERT INTO queue (message) VALUES (?)`.
The new row takes the column defaults: `delete_token` NULL, `dequeue_count` 0,
`visibility_timeout` CURRENT_TIMESTAMP (the insert instant), `id` the next
autoincrement value. -/
def sendMessage (table : List Row) (nextId : Nat) (now : Int) (msg : String) : List Row :=
  table ++ [{ delete_token := none, dequeue_count := 0, id := nextId,
              message := msg, visibility_timeout := now }]

/-- The SELECT phase of `receive_messages`:
`SELECT id, message, visibility_timeout, dequeue_count FROM queue WHERE
visibility_timeout < ? LIMIT ?` with the current time and `max_messages`. -/
def selectCandidates (table : List Row) (now : Int) (maxMessages : Nat) : List Row :=
  (table.filter (fun r => decide (r.visibility_timeout < now))).take maxMessages

/-- Construction of one `Message` inside the SELECT loop of
`receive_messages`: content, id, visibility timeout and dequeue count are
copied from the row as read, and the delete token is the freshly generated
random string. -/
def snapshotMessage (r : Row) (tok : String) : Message :=
  { content := r.message, delete_token := tok, message_id := r.id,
    visibility_timeout := r.visibility_timeout, dequeue_count := r.dequeue_count }

/-- Snapshots for all candidate rows in order, drawing the i-th fresh random
token from the supply `tokens`. -/
def snapshotAll (tokens : Nat → String) : Nat → List Row → List Message
  | _, [] => []
  | i, r :: rs => snapshotMessage r (tokens i) :: snapshotAll tokens (i + 1) rs

/-- The WHERE clause of the conditional UPDATE of `receive_messages`:
`WHERE id = ? AND dequeue_count = ?`, bound to the snapshotted message's id
and dequeue count. -/
def matchesClaim (m : Message) (r : Row) : Bool :=
  r.id == m.message_id && r.dequeue_count == m.dequeue_count

/-- The SET clause of the conditional UPDATE: `SET visibility_timeout = ?`
(now plus the visibility timeout), `delete_token = ?` (the fresh token),
`dequeue_count = dequeue_count + 1`. -/
def applyClaim (updNow vtSec : Int) (tok : String) (r : Row) : Row :=
  { r with visibility_timeout := updNow + vtSec, delete_token := some tok,
           dequeue_count := r.dequeue_count + 1 }

/-- One conditional UPDATE attempt of `receive_messages` for one snapshotted
candidate: every row matched by the WHERE clause is updated; if
`cursor.rowcount` is zero the candidate is skipped (`continue`, no message
yielded), otherwise the snapshotted message is yielded. -/
def claimStep (table : List Row) (m : Message) (updNow vtSec : Int) :
    List Row × Option Message :=
  let updated := table.map
    (fun r => if matchesClaim m r then applyClaim updNow vtSec m.delete_token r else r)
  let rowcount := (table.filter (matchesClaim m)).length
  (updated, if rowcount == 0 then none else some m)

/-- The whole `receive_messages(max_messages, visibility_timeout)` call:
select up to `max_messages` past-due rows and snapshot them with fresh
tokens, then for each snapshot run the conditional claim against the current
table, yielding exactly the messages whose update touched a row.
Returns the final table and the yielded messages in order. -/
def receiveMessages (table : List Row) (selNow : Int) (maxMessages : Nat)
    (tokens : Nat → String) (updNow vtSec : Int) : List Row × List Message :=
  (snapshotAll tokens 0 (selectCandidates table selNow maxMessages)).foldl
    (fun acc m =>
      let s := claimStep acc.1 m updNow vtSec
      (s.1, acc.2 ++ s.2.toList))
    (table, [])

/-- Error raised by the queue, from `app.persistence.iqueue`. -/
inductive QueueError
  | messageNotFound
deriving DecidableEq, Repr

/-- The WHERE clause of `delete_message`: `WHERE id = ? AND delete_token = ?`,
bound to the message's id and its delete token. -/
def matchesDelete (m : Message) (r : Row) : Bool :=
  r.id == m.message_id && r.delete_token == some m.delete_token

/-- The `delete_message` call: `DELETE FROM queue WHERE id = ? AND
delete_token = ?`; if `cursor.rowcount` is zero, raise `MessageNotFoundError`. -/
def deleteMessage (table : List Row) (m : Message) : Except QueueError (List Row) :=
  let remaining := table.filter (fun r => !(matchesDelete m r))
  let rowcount := (table.filter (matchesDelete m)).length
  if rowcount == 0 then .error .messageNotFound else .ok remaining

/-! Blob store: `LocalDiskBlob`. -/

/-- Errors raised by the blob store, from `app.persistence.iblob`:
`BlobNotFoundError`, `BlobAlreadyExistsError`, `LeaseNotFoundError`,
`LeaseAlreadyExistsError`. -/
inductive BlobError
  | blobNotFound
  | blobAlreadyExists
  | leaseNotFound
  | leaseAlreadyExists
deriving DecidableEq, Repr

/-- The `LeaseModel` record persisted in a `.lease` side file: an opaque
lease id (a fresh uuid at construction) and an absolute expiry `untilTime`
(the `until` field of the source, renamed: `until` is a Lean keyword). -/
structure LeaseModel where
  lease_id : String
  untilTime : Int
deriving DecidableEq, Repr

/-- Python truthiness of the optional `lease_id: str | None` argument:
`None` and the empty string are falsy, any other string is truthy. -/
def optTruthy : Option String → Bool
  | none => false
  | some s => !(s == "")

/-- State visible to `upload_blob` and `download_blob` for one key: the blob
file's content (none when the file is absent) and the parsed `.lease` side
file (none when the lease file is absent). -/
structure BlobState where
  blobContent : Option String
  leaseFile : Option LeaseModel
deriving DecidableEq, Repr

/-- The `upload_blob(blob, data, length, overwrite, lease_id)` call.
Step by step from the source: raise `BlobAlreadyExistsError` when the blob
file exists and overwrite is not set; when no lease file exists, raise
`LeaseNotFoundError` when a (truthy) lease id was provided; when a lease
file exists, read it: when the lease is expired (`until <= now`) remove the
lease file and fall through; when it is unexpired, raise
`LeaseAlreadyExistsError` when no (truthy) lease id was provided or when the
provided id differs from the stored one; finally write `data` to the blob
file. -/
def uploadBlob (st : BlobState) (data : String) (overwrite : Bool)
    (lease_id : Option String) (now : Int) : Except BlobError BlobState :=
  if st.blobContent.isSome && !overwrite then
    .error .blobAlreadyExists
  else
    match st.leaseFile with
    | none =>
      if optTruthy lease_id then .error .leaseNotFound
      else .ok { st with blobContent := some data }
    | some lease =>
      if lease.untilTime ≤ now then
        .ok { blobContent := some data, leaseFile := none }
      else
        if !optTruthy lease_id then .error .leaseAlreadyExists
        else if !(some lease.lease_id == lease_id) then .error .leaseAlreadyExists
        else .ok { st with blobContent := some data }

/-- The `download_blob(blob)` call: raise `BlobNotFoundError` when the blob
file is absent, otherwise return its full content decoded with the
store-wide encoding. -/
def downloadBlob (st : BlobState) : Except BlobError String :=
  match st.blobContent with
  | none => .error .blobNotFound
  | some d => .ok d

/-- Content of the `.lease` side file as `lease_blob` sees it: absent, or
present but unreadable (removed between the existence check and the read, or
invalid JSON — the `FileNotFoundError` / `JSONDecodeError` race branch), or
a parsed `LeaseModel`. -/
inductive LeaseFileContent
  | absent
  | unreadable
  | stored (l : LeaseModel)
deriving DecidableEq, Repr

/-- State visible to `lease_blob` for one key: whether the blob file exists,
the lease side file, and whether the `.lock` marker file next to the lease
file is present. -/
structure LeaseState where
  blobExists : Bool
  leaseFile : LeaseFileContent
  lockFile : Bool
deriving DecidableEq, Repr

/-- The polling loop of `_file_lock`: `while await path.exists(lock_file):
await asyncio.sleep(0.1)`. With no concurrent actor the marker's presence
never changes between polls, so the loop exits immediately when the marker
is absent and spins otherwise; `fuel` bounds the number of polls observed,
`none` meaning the loop was still spinning after `fuel` polls. -/
def fileLockPoll : Nat → Bool → Option Unit
  | _, false => some ()
  | 0, true => none
  | n + 1, true => fileLockPoll n true

/-- The body of `lease_blob(blob, lease_duration)` up to its `yield`, run
with no concurrent actor. `fuel` bounds the suspension points observed
(lock polls and race retries); `none` means the call had not produced a
result or error after `fuel` steps. From the source: raise
`BlobNotFoundError` when the blob file is absent; acquire `_file_lock` on
the lease path (creating the `.lock` marker with mode wb); when the lease
file exists and parses and its `until` is in the future, raise
`LeaseAlreadyExistsError`; when the lease file exists but cannot be read,
sleep briefly and re-enter the whole `lease_blob` call — still inside the
held `_file_lock`; otherwise write a fresh `LeaseModel` with the fresh uuid
`freshId` and expiry `now + duration`, release the lock and yield the id. -/
def leaseBlobEnter : Nat → LeaseState → Int → Int → String →
    Option (Except BlobError (String × LeaseState))
  | 0, _, _, _, _ => none
  | fuel + 1, st, now, duration, freshId =>
    if !st.blobExists then some (.error .blobNotFound)
    else
      match fileLockPoll fuel st.lockFile with
      | none => none
      | some () =>
        let st1 : LeaseState := { st with lockFile := true }
        match st1.leaseFile with
        | .stored l =>
          if now < l.untilTime then some (.error .leaseAlreadyExists)
          else some (.ok (freshId,
            { st1 with leaseFile := .stored { lease_id := freshId, untilTime := now + duration },
                       lockFile := false }))
        | .absent => some (.ok (freshId,
            { st1 with leaseFile := .stored { lease_id := freshId, untilTime := now + duration },
                       lockFile := false }))
        | .unreadable => leaseBlobEnter fuel st1 now duration freshId

/-- The scope-exit cleanup of `lease_blob`: `await remove(lease_file)` with
`FileNotFoundError` suppressed — the lease file ends up absent whether or
not it was still present. -/
def leaseScopeExit (st : LeaseState) : LeaseState :=
  { st with leaseFile := .absent }

/-! The `_file_lock` marker file: creation semantics and release path. -/

/-- Failures of the OS-level `remove` call: the target is already gone
(`FileNotFoundError`), or some other I/O failure. -/
inductive OsError
  | fileNotFound
  | otherFailure
deriving DecidableEq, Repr

/-- The OS-level `remove(path)` primitive applied to the lock marker:
fails with `FileNotFoundError` when the marker is absent; an injected fault
models any other I/O failure; otherwise the marker is removed. The returned
Bool is whether the marker is present afterwards. -/
def osRemove (present : Bool) (fault : Bool) : Except OsError Bool :=
  if !present then .error .fileNotFound
  else if fault then .error .otherFailure
  else .ok false

/-- The `try ... finally` of `_file_lock` around the critical section:
whatever the body's outcome `body` (a normal value or a raised error), the
`finally` clause removes the lock marker, suppressing only
`FileNotFoundError`; any other removal failure propagates. Returns the
body's outcome together with the marker's presence afterwards. -/
def fileLockExit {E S : Type} (body : Except E S) (present : Bool)
    (fault : Bool) : Except OsError (Except E S × Bool) :=
  match osRemove present fault with
  | .ok p => .ok (body, p)
  | .error .fileNotFound => .ok (body, false)
  | .error e => .error e

/-- World shared by two callers A and B racing through the acquisition steps
of `_file_lock` on the same path: whether the `.lock` marker exists, and
whether each caller has entered the critical section. -/
structure LockRace where
  lockFile : Bool
  aInside : Bool
  bInside : Bool
deriving DecidableEq, Repr

/-- One acquisition step of one of the two racing callers. A poll step fires
only when the caller observes the marker absent (otherwise the loop keeps
sleeping). A create step is `open(file=lock_file, mode="wb")`: it creates
the marker when absent and truncates it when present, succeeding in both
cases, after which the caller is inside the critical section. -/
inductive RaceStep
  | pollA
  | pollB
  | createA
  | createB
deriving DecidableEq, Repr

/-- Effect of one step on the shared world; `none` means the step cannot
fire at this moment (the poll observed the marker present). -/
def raceStep (w : LockRace) : RaceStep → Option LockRace
  | .pollA => if w.lockFile then none else some w
  | .pollB => if w.lockFile then none else some w
  | .createA => some { w with lockFile := true, aInside := true }
  | .createB => some { w with lockFile := true, bInside := true }

/-- Run an interleaving of acquisition steps from a shared world. -/
def runRace (w : LockRace) : List RaceStep → Option LockRace
  | [] => some w
  | s :: rest => (raceStep w s).bind (fun w1 => runRace w1 rest)

/-! Theorems. -/

/-- Bridging lemma: the Bool WHERE-clause test of the conditional UPDATE
holds exactly when the row's id matches the message and its dequeue count
still equals the snapshotted value. -/
theorem matchesClaim_eq_true_iff (m : Message) (r : Row) :
    matchesClaim m r = true ↔
      r.id = m.message_id ∧ r.dequeue_count = m.dequeue_count := by
  simp [matchesClaim]

/-- C1: in `receive_messages(max, visibility_timeout_seconds)`, every
candidate is a row whose visibility timeout is in the past, at most `max`
are selected, and each candidate's claim is one conditional update — it sets
`visibility_timeout` to now + visibility_timeout_seconds, assigns the fresh
delete token, and increments `dequeue_count`, on exactly the rows whose id
matches and whose `dequeue_count` equals the snapshotted value; a candidate
whose update touches zero rows is silently skipped (not yielded, no error,
table untouched), and a candidate whose update touches a row is yielded. -/
theorem C1_receive_conditional_claim (table : List Row) (selNow updNow vtSec : Int)
    (maxMessages : Nat) (tokens : Nat → String) :
    (∀ r ∈ selectCandidates table selNow maxMessages, r.visibility_timeout < selNow) ∧
    (selectCandidates table selNow maxMessages).length ≤ maxMessages ∧
    (∀ (t : List Row) (m : Message),
      (claimStep t m updNow vtSec).1 = t.map (fun r =>
        if r.id = m.message_id ∧ r.dequeue_count = m.dequeue_count then
          { r with visibility_timeout := updNow + vtSec,
                   delete_token := some m.delete_token,
                   dequeue_count := r.dequeue_count + 1 }
        else r)) ∧
    (∀ (t : List Row) (m : Message),
      (claimStep t m updNow vtSec).2 = some m ↔
        ∃ r ∈ t, r.id = m.message_id ∧ r.dequeue_count = m.dequeue_count) ∧
    (∀ (t : List Row) (m : Message),
      (¬ ∃ r ∈ t, r.id = m.message_id ∧ r.dequeue_count = m.dequeue_count) →
        (claimStep t m updNow vtSec).2 = none ∧ (claimStep t m updNow vtSec).1 = t) ∧
    receiveMessages table selNow maxMessages tokens updNow vtSec =
      (snapshotAll tokens 0 (selectCandidates table selNow maxMessages)).foldl
        (fun acc m =>
          let s := claimStep acc.1 m updNow vtSec
          (s.1, acc.2 ++ s.2.toList))
        (table, []) := by
  refine ⟨?_, ?_, ?_, ?_, ?_, rfl⟩
  · intro r hr
    have h1 := List.mem_of_mem_take hr
    simpa using (List.mem_filter.mp h1).2
  · exact List.length_take_le maxMessages _
  · intro t m
    apply List.map_congr_left
    intro r _
    by_cases h : matchesClaim m r
    · rw [if_pos h, if_pos ((matchesClaim_eq_true_iff m r).mp h)]
      rfl
    · rw [if_neg h, if_neg (fun hp => h ((matchesClaim_eq_true_iff m r).mpr hp))]
  · intro t m
    constructor
    · intro hsome
      by_contra hno
      have hfil : t.filter (matchesClaim m) = [] := by
        refine List.filter_eq_nil_iff.mpr ?_
        intro a ha hmatch
        exact hno ⟨a, ha, (matchesClaim_eq_true_iff m a).mp hmatch⟩
      simp [claimStep, hfil] at hsome
    · rintro ⟨r, hrt, hid, hdc⟩
      have hmem : r ∈ t.filter (matchesClaim m) :=
        List.mem_filter.mpr ⟨hrt, (matchesClaim_eq_true_iff m r).mpr ⟨hid, hdc⟩⟩
      have hlen : (t.filter (matchesClaim m)).length ≠ 0 := by
        simp only [ne_eq, List.length_eq_zero]
        exact List.ne_nil_of_mem hmem
      simp [claimStep, hlen]
  · intro t m hno
    have hfil : t.filter (matchesClaim m) = [] := by
      refine List.filter_eq_nil_iff.mpr ?_
      intro a ha hmatch
      exact hno ⟨a, ha, (matchesClaim_eq_true_iff m a).mp hmatch⟩
    constructor
    · simp [claimStep, hfil]
    · simp only [claimStep]
      have : ∀ r ∈ t, (if matchesClaim m r then applyClaim updNow vtSec m.delete_token r else r) = r := by
        intro r hrt
        have : matchesClaim m r = false := by
          by_contra hb
          have := List.filter_eq_nil_iff.mp hfil r hrt
          simp at hb
          exact this hb
        rw [this]
        simp
      rw [List.map_congr_left this]
      exact List.map_id t

/-- Witness for C1 at a one-row table: the snapshot of the only row is
claimed (the conditional update finds a matching row and the message is
yielded), while a snapshot with a stale dequeue count is skipped. -/
theorem C1_receive_conditional_claim_witness :
    (claimStep (sendMessage [] 1 0 "A")
      (snapshotMessage { delete_token := none, dequeue_count := 0, id := 1,
                         message := "A", visibility_timeout := 0 } "tk12") 6 30).2 =
      some (snapshotMessage { delete_token := none, dequeue_count := 0, id := 1,
                              message := "A", visibility_timeout := 0 } "tk12") := by
  have h := (C1_receive_conditional_claim (sendMessage [] 1 0 "A") 5 6 30 2
    (fun _ => "tk12")).2.2.2.1 (sendMessage [] 1 0 "A")
    (snapshotMessage { delete_token := none, dequeue_count := 0, id := 1,
                       message := "A", visibility_timeout := 0 } "tk12")
  exact h.mpr ⟨{ delete_token := none, dequeue_count := 0, id := 1,
                 message := "A", visibility_timeout := 0 }, by simp [sendMessage], rfl, rfl⟩

/-- C2, counterexample: send "A" (row id 1, dequeue count 0), then receive
one message with visibility timeout 30 at time 6. The yielded message's
`dequeue_count` is 0 — not the post-claim value 1 the claim requires on a
first receive — and its `visibility_timeout` is the pre-claim value 0, not
the pushed-forward deadline 6 + 30 = 36; the updated row itself does carry 1
and 36. -/
theorem C2_message_counters_counterexample :
    ((receiveMessages (sendMessage [] 1 0 "A") 5 1 (fun _ => "tok4abc") 6 30).2.map
        Message.dequeue_count = [0]) ∧
    ((receiveMessages (sendMessage [] 1 0 "A") 5 1 (fun _ => "tok4abc") 6 30).1.map
        Row.dequeue_count = [1]) ∧
    ((receiveMessages (sendMessage [] 1 0 "A") 5 1 (fun _ => "tok4abc") 6 30).2.map
        Message.visibility_timeout = [0]) ∧
    ((receiveMessages (sendMessage [] 1 0 "A") 5 1 (fun _ => "tok4abc") 6 30).1.map
        Row.visibility_timeout = [36]) ∧
    ¬ ([0] = [(1 : Nat)]) ∧ ¬ (([0] : List Int) = [36]) := by
  refine ⟨rfl, rfl, rfl, rfl, by decide, by decide⟩

/-- C2, amended: every Message yielded by `receive_messages` carries the new
delete token but the pre-claim snapshot of the row's counters — its
`dequeue_count` equals the row's dequeue count before the claim (0 on a
message's first receive) and its `visibility_timeout` is the row's pre-claim
visibility timeout — while the stored row, after the claim, has
`dequeue_count` one higher and `visibility_timeout` equal to
now + visibility_timeout_seconds and the new token. -/
theorem C2_message_counters_amended (t : List Row) (r : Row) (tok : String)
    (updNow vtSec : Int) (hrt : r ∈ t) :
    (snapshotMessage r tok).delete_token = tok ∧
    (snapshotMessage r tok).content = r.message ∧
    (snapshotMessage r tok).message_id = r.id ∧
    (snapshotMessage r tok).dequeue_count = r.dequeue_count ∧
    (snapshotMessage r tok).visibility_timeout = r.visibility_timeout ∧
    (claimStep t (snapshotMessage r tok) updNow vtSec).2 = some (snapshotMessage r tok) ∧
    ∃ r2 ∈ (claimStep t (snapshotMessage r tok) updNow vtSec).1,
      r2.id = r.id ∧
      r2.dequeue_count = r.dequeue_count + 1 ∧
      r2.visibility_timeout = updNow + vtSec ∧
      r2.delete_token = some tok := by
  have hmatch : matchesClaim (snapshotMessage r tok) r = true :=
    (matchesClaim_eq_true_iff _ r).mpr ⟨rfl, rfl⟩
  refine ⟨rfl, rfl, rfl, rfl, rfl, ?_, ?_⟩
  · have hmem : r ∈ t.filter (matchesClaim (snapshotMessage r tok)) :=
      List.mem_filter.mpr ⟨hrt, hmatch⟩
    have hlen : (t.filter (matchesClaim (snapshotMessage r tok))).length ≠ 0 := by
      simp only [ne_eq, List.length_eq_zero]
      exact List.ne_nil_of_mem hmem
    simp [claimStep, hlen]
  · refine ⟨applyClaim updNow vtSec tok r, ?_, rfl, rfl, rfl, rfl⟩
    have hmem := List.mem_map_of_mem (fun x => if matchesClaim (snapshotMessage r tok) x then
        applyClaim updNow vtSec (snapshotMessage r tok).delete_token x else x) hrt
    simp only [hmatch, if_true] at hmem
    exact hmem

/-- Witness for the amended C2 at the concrete one-row table of the
counterexample scenario. -/
theorem C2_message_counters_amended_witness :
    (claimStep (sendMessage [] 1 0 "A")
      (snapshotMessage { delete_token := none, dequeue_count := 0, id := 1,
                         message := "A", visibility_timeout := 0 } "tok4abc") 6 30).2 =
      some (snapshotMessage { delete_token := none, dequeue_count := 0, id := 1,
                              message := "A", visibility_timeout := 0 } "tok4abc") := by
  have h := C2_message_counters_amended (sendMessage [] 1 0 "A")
    { delete_token := none, dequeue_count := 0, id := 1,
      message := "A", visibility_timeout := 0 } "tok4abc" 6 30 (by simp [sendMessage])
  exact h.2.2.2.2.2.1

/-- Bridging lemma: the Bool WHERE-clause test of `delete_message` holds
exactly when the row's id matches the message and its stored delete token
equals the presented one. -/
theorem matchesDelete_eq_true_iff (m : Message) (r : Row) :
    matchesDelete m r = true ↔
      r.id = m.message_id ∧ r.delete_token = some m.delete_token := by
  simp [matchesDelete]

/-- C5: `delete_message` raises `MessageNotFound` exactly when no row
matches the presented message's id and delete token; on success it removes
exactly the matching rows (a member of the old table survives iff it does
not match), a second call with the same now-stale token then fails with
`MessageNotFound`, and on the failing call the delete removed nothing, so
the table is unchanged. -/
theorem C5_delete_message (table : List Row) (m : Message) :
    (deleteMessage table m = .error .messageNotFound ↔
      ¬ ∃ r ∈ table, r.id = m.message_id ∧ r.delete_token = some m.delete_token) ∧
    (∀ t2, deleteMessage table m = .ok t2 →
      (∀ r ∈ table,
        (r ∈ t2 ↔ ¬ (r.id = m.message_id ∧ r.delete_token = some m.delete_token))) ∧
      deleteMessage t2 m = .error .messageNotFound) ∧
    (deleteMessage table m = .error .messageNotFound →
      table.filter (fun r => !(matchesDelete m r)) = table) := by
  have hiff : (((table.filter (matchesDelete m)).length == 0) = true) ↔
      ¬ ∃ r ∈ table, r.id = m.message_id ∧ r.delete_token = some m.delete_token := by
    rw [beq_iff_eq, List.length_eq_zero, List.filter_eq_nil_iff]
    constructor
    · rintro h ⟨r, hrt, hp⟩
      exact h r hrt ((matchesDelete_eq_true_iff m r).mpr hp)
    · intro h r hrt hm
      exact h ⟨r, hrt, (matchesDelete_eq_true_iff m r).mp hm⟩
  by_cases hc : (((table.filter (matchesDelete m)).length == 0) = true)
  · have herr : deleteMessage table m = .error .messageNotFound := by
      simp only [deleteMessage]
      rw [if_pos hc]
    refine ⟨?_, ?_, ?_⟩
    · rw [herr]
      exact ⟨fun _ => hiff.mp hc, fun _ => rfl⟩
    · intro t2 hok
      rw [herr] at hok
      cases hok
    · intro _
      have hnil : table.filter (matchesDelete m) = [] := by
        rwa [beq_iff_eq, List.length_eq_zero] at hc
      refine List.filter_eq_self.mpr ?_
      intro r hrt
      have hfalse := List.filter_eq_nil_iff.mp hnil r hrt
      simp only [Bool.not_eq_true] at hfalse
      simp [hfalse]
  · have hok : deleteMessage table m =
        .ok (table.filter (fun r => !(matchesDelete m r))) := by
      simp only [deleteMessage]
      rw [if_neg hc]
    refine ⟨?_, ?_, ?_⟩
    · rw [hok]
      constructor
      · intro h
        cases h
      · intro hno
        exact absurd (hiff.mpr hno) hc
    · intro t2 ht2
      rw [hok] at ht2
      injection ht2 with ht2
      refine ⟨?_, ?_⟩
      · intro r hrt
        constructor
        · intro hrt2 hp
          rw [← ht2] at hrt2
          have hneg := (List.mem_filter.mp hrt2).2
          simp only [Bool.not_eq_eq_eq_not, Bool.not_true] at hneg
          rw [(matchesDelete_eq_true_iff m r).mpr hp] at hneg
          cases hneg
        · intro hp
          rw [← ht2]
          refine List.mem_filter.mpr ⟨hrt, ?_⟩
          have : matchesDelete m r = false := by
            by_contra hb
            simp only [Bool.not_eq_false] at hb
            exact hp ((matchesDelete_eq_true_iff m r).mp hb)
          simp [this]
      · have hfil : t2.filter (matchesDelete m) = [] := by
          rw [← ht2]
          refine List.filter_eq_nil_iff.mpr ?_
          intro a ha hm2
          have hneg := (List.mem_filter.mp ha).2
          rw [hm2] at hneg
          cases hneg
        simp [deleteMessage, hfil]
    · intro herr
      rw [hok] at herr
      cases herr

/-- Witness for C5: deleting the single claimed row with its current token
succeeds, and a second delete with the same token then raises
`MessageNotFound`. -/
theorem C5_delete_message_witness :
    (deleteMessage
      [{ delete_token := some "tk12", dequeue_count := 1, id := 1,
         message := "A", visibility_timeout := 36 }]
      { content := "A", delete_token := "tk12", message_id := 1,
        visibility_timeout := 0, dequeue_count := 0 } = .ok []) ∧
    deleteMessage []
      { content := "A", delete_token := "tk12", message_id := 1,
        visibility_timeout := 0, dequeue_count := 0 } =
      .error .messageNotFound := by
  have h := (C5_delete_message
    [{ delete_token := some "tk12", dequeue_count := 1, id := 1,
       message := "A", visibility_timeout := 36 }]
    { content := "A", delete_token := "tk12", message_id := 1,
      visibility_timeout := 0, dequeue_count := 0 }).2.1 [] (by rfl)
  exact ⟨by rfl, h.2⟩

/-- C3: `upload_blob` fails with `AlreadyExists` when the blob file exists
and overwrite is false; when no lease file exists and a (nonempty) lease id
was supplied it fails with `LeaseNotFound`; when an unexpired lease file
exists it fails with `LeaseAlreadyExists` when the lease id is missing (not
truthy) or differs from the stored one, and succeeds — writing the data —
when the supplied lease id matches the stored one. -/
theorem C3_upload_lease_validation (st : BlobState) (data : String) (overwrite : Bool)
    (lease_id : Option String) (now : Int) :
    (st.blobContent.isSome = true → overwrite = false →
      uploadBlob st data overwrite lease_id now = .error .blobAlreadyExists) ∧
    (¬ (st.blobContent.isSome = true ∧ overwrite = false) →
      st.leaseFile = none → ∀ s, lease_id = some s → s ≠ "" →
        uploadBlob st data overwrite lease_id now = .error .leaseNotFound) ∧
    (∀ l, ¬ (st.blobContent.isSome = true ∧ overwrite = false) →
      st.leaseFile = some l → now < l.untilTime →
      ((optTruthy lease_id = false ∨ lease_id ≠ some l.lease_id) →
        uploadBlob st data overwrite lease_id now = .error .leaseAlreadyExists) ∧
      (lease_id = some l.lease_id → l.lease_id ≠ "" →
        uploadBlob st data overwrite lease_id now =
          .ok { st with blobContent := some data })) := by
  rcases st with ⟨bc, lf⟩
  refine ⟨?_, ?_, ?_⟩
  · intro h1 h2
    simp only [uploadBlob]
    rw [if_pos (by simp_all)]
  · intro hng hlf s hs hsne
    have hcond : (Option.isSome bc && !overwrite) = false := by
      cases hb : Option.isSome bc <;> cases ho : overwrite <;> simp_all
    simp only at hlf
    subst hlf
    simp only [uploadBlob, hcond, Bool.false_eq_true, if_false]
    subst hs
    rw [if_pos (by simp [optTruthy, hsne])]
  · intro l hng hlf hunexp
    have hcond : (Option.isSome bc && !overwrite) = false := by
      cases hb : Option.isSome bc <;> cases ho : overwrite <;> simp_all
    simp only at hlf
    subst hlf
    have hnle : ¬ (l.untilTime ≤ now) := not_le.mpr hunexp
    constructor
    · intro hbad
      simp only [uploadBlob, hcond, Bool.false_eq_true, if_false]
      rw [if_neg hnle]
      rcases hbad with hfalsy | hne
      · rw [if_pos (by simp [hfalsy])]
      · by_cases ht : optTruthy lease_id = true
        · rw [if_neg (by simp [ht]), if_pos (by simp; exact fun hle => hne hle.symm)]
        · rw [if_pos (by simp_all)]
    · intro hmatch hne
      simp only [uploadBlob, hcond, Bool.false_eq_true, if_false]
      rw [if_neg hnle]
      rw [if_neg (by simp [hmatch, optTruthy, hne])]
      rw [if_neg (by simp [hmatch])]

/-- Witness for C3 at concrete states: overwrite guard, stale lease id on an
unleased blob, mismatched and matching lease ids on an unexpired lease. -/
theorem C3_upload_lease_validation_witness :
    (uploadBlob { blobContent := some "old", leaseFile := none } "new" false none 0 =
      .error .blobAlreadyExists) ∧
    (uploadBlob { blobContent := none, leaseFile := none } "new" true (some "L1") 0 =
      .error .leaseNotFound) ∧
    (uploadBlob { blobContent := some "old", leaseFile := some { lease_id := "L1", untilTime := 100 } }
      "new" true (some "L2") 50 = .error .leaseAlreadyExists) ∧
    (uploadBlob { blobContent := some "old", leaseFile := some { lease_id := "L1", untilTime := 100 } }
      "new" true (some "L1") 50 =
      .ok { blobContent := some "new", leaseFile := some { lease_id := "L1", untilTime := 100 } }) := by
  refine ⟨?_, ?_, ?_, ?_⟩
  · exact (C3_upload_lease_validation
      { blobContent := some "old", leaseFile := none } "new" false none 0).1 rfl rfl
  · exact (C3_upload_lease_validation
      { blobContent := none, leaseFile := none } "new" true (some "L1") 0).2.1
      (by simp) rfl "L1" rfl (by decide)
  · exact ((C3_upload_lease_validation
      { blobContent := some "old", leaseFile := some { lease_id := "L1", untilTime := 100 } }
      "new" true (some "L2") 50).2.2 { lease_id := "L1", untilTime := 100 }
      (by simp) rfl (by decide)).1 (Or.inr (by decide))
  · exact ((C3_upload_lease_validation
      { blobContent := some "old", leaseFile := some { lease_id := "L1", untilTime := 100 } }
      "new" true (some "L1") 50).2.2 { lease_id := "L1", untilTime := 100 }
      (by simp) rfl (by decide)).2 rfl (by decide)

/-- C10: when the lease file holds an expired lease (`until <= now`),
`upload_blob` deletes the lease file and writes the data successfully, for
every value of the supplied lease id — matching, mismatching or absent —
raising neither `LeaseNotFound` nor `LeaseAlreadyExists`. -/
theorem C10_expired_lease_reclaimed (st : BlobState) (data : String) (overwrite : Bool)
    (lease_id : Option String) (now : Int) (l : LeaseModel)
    (hl : st.leaseFile = some l) (hexp : l.untilTime ≤ now)
    (hng : ¬ (st.blobContent.isSome = true ∧ overwrite = false)) :
    uploadBlob st data overwrite lease_id now =
      .ok { blobContent := some data, leaseFile := none } := by
  rcases st with ⟨bc, lf⟩
  have hcond : (Option.isSome bc && !overwrite) = false := by
    cases hb : Option.isSome bc <;> cases ho : overwrite <;> simp_all
  simp only at hl
  subst hl
  simp only [uploadBlob, hcond, Bool.false_eq_true, if_false]
  rw [if_pos hexp]

/-- Witness for C10: an expired lease (expiry 10, now 50) is reclaimed and
the upload succeeds with a mismatching lease id. -/
theorem C10_expired_lease_reclaimed_witness :
    uploadBlob { blobContent := some "old", leaseFile := some { lease_id := "L1", untilTime := 10 } }
      "new" true (some "other") 50 =
      .ok { blobContent := some "new", leaseFile := none } :=
  C10_expired_lease_reclaimed
    { blobContent := some "old", leaseFile := some { lease_id := "L1", untilTime := 10 } }
    "new" true (some "other") 50 { lease_id := "L1", untilTime := 10 }
    rfl (by decide) (by simp)

/-- C9: round-trip — whenever `upload_blob(key, data)` succeeds,
`download_blob(key)` on the resulting state returns exactly `data`. -/
theorem C9_upload_download_roundtrip (st st2 : BlobState) (data : String)
    (overwrite : Bool) (lease_id : Option String) (now : Int)
    (h : uploadBlob st data overwrite lease_id now = .ok st2) :
    downloadBlob st2 = .ok data := by
  rcases st with ⟨bc, lf⟩
  simp only [uploadBlob] at h
  by_cases h1 : (Option.isSome bc && !overwrite) = true
  · rw [if_pos h1] at h
    cases h
  · rw [if_neg h1] at h
    cases lf with
    | none =>
      dsimp only at h
      by_cases h2 : optTruthy lease_id = true
      · rw [if_pos h2] at h
        cases h
      · rw [if_neg h2] at h
        injection h with h
        rw [← h]
        rfl
    | some lease =>
      dsimp only at h
      by_cases h3 : lease.untilTime ≤ now
      · rw [if_pos h3] at h
        injection h with h
        rw [← h]
        rfl
      · rw [if_neg h3] at h
        by_cases h4 : (!optTruthy lease_id) = true
        · rw [if_pos h4] at h
          cases h
        · rw [if_neg h4] at h
          by_cases h5 : (!(some lease.lease_id == lease_id)) = true
          · rw [if_pos h5] at h
            cases h
          · rw [if_neg h5] at h
            injection h with h
            rw [← h]
            rfl

/-- Witness for C9: uploading "hello" to a fresh key and downloading it
returns "hello". -/
theorem C9_upload_download_roundtrip_witness :
    downloadBlob { blobContent := some "hello", leaseFile := none } = .ok "hello" :=
  C9_upload_download_roundtrip { blobContent := none, leaseFile := none }
    { blobContent := some "hello", leaseFile := none } "hello" false none 0 rfl

/-- Helper: the `_file_lock` polling loop never completes while the marker
stays present — with no concurrent actor the loop observes the marker on
every poll, for any number of polls. -/
theorem fileLockPoll_locked (n : Nat) : fileLockPoll n true = none := by
  induction n with
  | zero => rfl
  | succ k ih => simpa [fileLockPoll] using ih

/-- Helper: a `lease_blob` attempt on an existing blob never produces a
result while the lock marker is already held, whatever the fuel. -/
theorem leaseBlobEnter_locked (fuel : Nat) (st : LeaseState) (now dur : Int)
    (fid : String) (hbe : st.blobExists = true) (hlk : st.lockFile = true) :
    leaseBlobEnter fuel st now dur fid = none := by
  cases fuel with
  | zero => rfl
  | succ n => simp [leaseBlobEnter, hbe, hlk, fileLockPoll_locked]

/-- C4: `lease_blob` fails with `NotFound` when the blob file does not
exist; otherwise, under the file lock, it fails with `LeaseAlreadyExists`
exactly when an unexpired lease file (stored `until` strictly in the
future) exists; otherwise it writes a fresh lease record with the freshly
generated id and expiry now + duration, yields that id with the lock
released, and the scope exit deletes the lease file, tolerating its prior
absence. -/
theorem C4_lease_blob_protocol (st : LeaseState) (now duration : Int)
    (freshId : String) (fuel : Nat) (hfuel : 1 ≤ fuel)
    (hlock : st.lockFile = false) :
    (st.blobExists = false →
      leaseBlobEnter fuel st now duration freshId = some (.error .blobNotFound)) ∧
    (∀ l, st.blobExists = true → st.leaseFile = .stored l →
      (leaseBlobEnter fuel st now duration freshId =
        some (.error .leaseAlreadyExists) ↔ now < l.untilTime)) ∧
    (∀ l, st.blobExists = true → st.leaseFile = .stored l → l.untilTime ≤ now →
      leaseBlobEnter fuel st now duration freshId =
        some (.ok (freshId,
          { blobExists := st.blobExists,
            leaseFile := .stored { lease_id := freshId, untilTime := now + duration },
            lockFile := false }))) ∧
    (st.blobExists = true → st.leaseFile = .absent →
      leaseBlobEnter fuel st now duration freshId =
        some (.ok (freshId,
          { blobExists := st.blobExists,
            leaseFile := .stored { lease_id := freshId, untilTime := now + duration },
            lockFile := false }))) ∧
    (∀ st2 : LeaseState, (leaseScopeExit st2).leaseFile = .absent) := by
  obtain ⟨n, rfl⟩ : ∃ n, fuel = n + 1 := by
    cases fuel with
    | zero => omega
    | succ k => exact ⟨k, rfl⟩
  rcases st with ⟨be, lf, lk⟩
  simp only at hlock
  subst hlock
  refine ⟨?_, ?_, ?_, ?_, fun _ => rfl⟩
  · intro hbe
    simp only at hbe
    subst hbe
    rfl
  · intro l hbe hlf
    simp only at hbe hlf
    subst hbe
    subst hlf
    by_cases hcmp : now < l.untilTime
    · simp [leaseBlobEnter, fileLockPoll, hcmp]
    · simp [leaseBlobEnter, fileLockPoll, hcmp]
  · intro l hbe hlf hexp
    simp only at hbe hlf
    subst hbe
    subst hlf
    have hcmp : ¬ (now < l.untilTime) := not_lt.mpr hexp
    simp [leaseBlobEnter, fileLockPoll, hcmp]
  · intro hbe hlf
    simp only at hbe hlf
    subst hbe
    subst hlf
    simp [leaseBlobEnter, fileLockPoll]

/-- Witness for C4 at concrete states: a fresh lease is granted on an
unleased existing blob, and a conflict is raised while an unexpired lease
exists. -/
theorem C4_lease_blob_protocol_witness :
    (leaseBlobEnter 1 { blobExists := true, leaseFile := .absent, lockFile := false }
      0 60 "uuid1" =
      some (.ok ("uuid1",
        { blobExists := true,
          leaseFile := .stored { lease_id := "uuid1", untilTime := 60 },
          lockFile := false }))) ∧
    (leaseBlobEnter 1
      { blobExists := true, leaseFile := .stored { lease_id := "L1", untilTime := 100 },
        lockFile := false } 50 60 "uuid2" = some (.error .leaseAlreadyExists)) := by
  constructor
  · exact (C4_lease_blob_protocol
      { blobExists := true, leaseFile := .absent, lockFile := false }
      0 60 "uuid1" 1 (by decide) rfl).2.2.2.1 rfl rfl
  · exact ((C4_lease_blob_protocol
      { blobExists := true, leaseFile := .stored { lease_id := "L1", untilTime := 100 },
        lockFile := false } 50 60 "uuid2" 1 (by decide) rfl).2.1
      { lease_id := "L1", untilTime := 100 } rfl rfl).mpr (by decide)

/-- C7: the lease-file race retry never completes. When the blob exists and
its lease file is unreadable (the retry branch), the retried `lease_blob`
call is made while the outer invocation still holds the `_file_lock`
marker, so the nested lock acquisition polls the still-present marker
forever: for every amount of fuel the operation produces no result — it
neither yields a lease id nor raises. -/
theorem C7_retry_never_completes (fuel : Nat) (st : LeaseState) (now dur : Int)
    (fid : String) (hbe : st.blobExists = true)
    (hcor : st.leaseFile = .unreadable) (hlk : st.lockFile = false) :
    leaseBlobEnter fuel st now dur fid = none := by
  cases fuel with
  | zero => rfl
  | succ n =>
    rcases st with ⟨be, lf, lk⟩
    simp only at hbe hcor hlk
    subst hbe
    subst hcor
    subst hlk
    have hrec : leaseBlobEnter n
        { blobExists := true, leaseFile := .unreadable, lockFile := true }
        now dur fid = none :=
      leaseBlobEnter_locked n _ now dur fid rfl rfl
    simpa [leaseBlobEnter, fileLockPoll] using hrec

/-- Witness for C7: with an existing blob, an unreadable lease file and a
free lock, five fuel steps produce no result. -/
theorem C7_retry_never_completes_witness :
    leaseBlobEnter 5 { blobExists := true, leaseFile := .unreadable, lockFile := false }
      0 60 "uuid1" = none :=
  C7_retry_never_completes 5
    { blobExists := true, leaseFile := .unreadable, lockFile := false }
    0 60 "uuid1" rfl rfl rfl

/-- C6: the marker file is created with mode wb — create-or-truncate, not
create-or-fail. Two callers that both observed the marker absent can both
succeed in creating it and both enter the critical section: the
interleaving A polls, B polls, A creates, B creates runs to completion with
both callers inside; in particular the create step fires even when the
marker is already present. -/
theorem C6_both_creates_succeed :
    (runRace { lockFile := false, aInside := false, bInside := false }
      [.pollA, .pollB, .createA, .createB] =
      some { lockFile := true, aInside := true, bInside := true }) ∧
    (raceStep { lockFile := true, aInside := true, bInside := false } .createB =
      some { lockFile := true, aInside := true, bInside := true }) := by
  exact ⟨rfl, rfl⟩

/-- C8: on every exit of the `_file_lock` critical section — the body's
outcome being a normal value or a raised error alike — the `finally` clause
removes the marker; a `FileNotFoundError` from that removal (marker already
gone) is tolerated and the body's outcome is preserved with the marker
absent, while any other removal failure propagates. -/
theorem C8_release_guaranteed {E S : Type} (body : Except E S)
    (present fault : Bool) :
    (fault = false → fileLockExit body present fault = .ok (body, false)) ∧
    (present = false → fileLockExit body present fault = .ok (body, false)) ∧
    (present = true → fault = true →
      fileLockExit body present fault = .error .otherFailure) := by
  refine ⟨?_, ?_, ?_⟩
  · intro hf
    subst hf
    cases present <;> rfl
  · intro hp
    subst hp
    cases fault <;> rfl
  · intro hp hf
    subst hp
    subst hf
    rfl

/-- Witness for C8: an error exit of the body still ends with the marker
removed and the error preserved; a marker already gone is tolerated; a
non-FileNotFound removal failure propagates. -/
theorem C8_release_guaranteed_witness :
    (fileLockExit (.error 7 : Except Nat Nat) true false = .ok (.error 7, false)) ∧
    (fileLockExit (.ok 3 : Except Nat Nat) false false = .ok (.ok 3, false)) ∧
    (fileLockExit (.ok 3 : Except Nat Nat) true true = .error .otherFailure) :=
  ⟨(C8_release_guaranteed (.error 7 : Except Nat Nat) true false).1 rfl,
   (C8_release_guaranteed (.ok 3 : Except Nat Nat) false false).2.1 rfl,
   (C8_release_guaranteed (.ok 3 : Except Nat Nat) true true).2.2 rfl rfl⟩

end LocalDisk
